import Mathlib

/-!
Shallow embedding of the heyvr-cli publishing script (src/index.js) and
proofs about its argument validation, path resolution, version
classification and upload flow.

The script is one linear async procedure `main()`:
parse arguments → collect validation errors → classify the version
increment → zip the deploy folder → POST the multipart form → exit.
We embed the pure decision logic directly; the two awaited external
effects (archive creation, HTTP upload) are parameters of `mainRun`.
-/

namespace HeyVR

/-- JS `String.prototype.startsWith`: the search string is a prefix. -/
def jsStartsWith (s pat : String) : Bool := pat.toList.isPrefixOf s.toList

/-- JS `String.prototype.endsWith`: the search string is a suffix. -/
def jsEndsWith (s pat : String) : Bool := pat.toList.isSuffixOf s.toList

/-- JS truthiness of an optional string value: `undefined` (here `none`)
and the empty string are falsy, every other string is truthy.  Used for
`!args.values.version`, `args.values.path || ...`, `!accessToken`, and
`args.values.sdkVersion || 1` in src/index.js. -/
def truthy : Option String → Bool
  | none => false
  | some s => !s.toList.isEmpty

/-- The `values` record produced by `parseArgs` for the four options
declared at src/index.js lines 83-88 (all of type string). -/
structure ArgValues where
  version : Option String := none
  path : Option String := none
  gameId : Option String := none
  sdkVersion : Option String := none
deriving DecidableEq, Repr

/-- The option names accepted by the `options` table (lines 83-88). -/
def optionNames : List String := ["version", "path", "gameId", "sdkVersion"]

/-- Record a parsed option value; later occurrences overwrite earlier
ones, as `parseArgs` does for non-multiple options. -/
def ArgValues.set (vs : ArgValues) (name value : String) : ArgValues :=
  if name = "version" then { vs with version := some value }
  else if name = "path" then { vs with path := some value }
  else if name = "gameId" then { vs with gameId := some value }
  else if name = "sdkVersion" then { vs with sdkVersion := some value }
  else vs

/-- A token that looks like an option (starts with a dash and is not the
lone dash), which `parseArgs` refuses to consume as an option value in
strict mode. -/
def optionLike (s : String) : Bool := jsStartsWith s "-" && s != "-"

/-- Split `--name=value` bodies at the first `=`; the value is everything
after that first `=` (it may itself contain `=`). -/
def splitFirstEq (s : String) : String × Option String :=
  match s.toList.findIdx? (fun c => c == '=') with
  | none => (s, none)
  | some i => (String.mk (s.toList.take i), some (String.mk (s.toList.drop (i + 1))))

/-- Model of `parseArgs({ options })` from node:util (line 89) applied to
`process.argv.slice(2)`, with the four string options, strict mode and no
positionals (the defaults).  `none` models parseArgs throwing: unknown
option, missing or option-like option value, or a positional token. -/
def parseArgsValues : List String → ArgValues → Option ArgValues
  | [], vs => some vs
  | a :: rest, vs =>
    if a = "--" then
      if rest.isEmpty then some vs else none
    else if jsStartsWith a "--" then
      match splitFirstEq (String.mk (a.toList.drop 2)) with
      | (name, someVal) =>
        if optionNames.contains name then
          match someVal with
          | some v => parseArgsValues rest (vs.set name v)
          | none =>
            match rest with
            | [] => none
            | v :: rest2 =>
              if optionLike v then none
              else parseArgsValues rest2 (vs.set name v)
        else none
    else none

/-- The ambient state a run of the script observes: the process argument
vector, the file system seen through `fs.existsSync`, and the
`HEYVR_ACCESS_TOKEN` environment variable. -/
structure World where
  argv : List String
  existsSync : String → Bool
  heyvrAccessToken : Option String

/-- Lines 99-100: `args.values.path || (fs.existsSync('deploy') &&
'deploy') || (fs.existsSync('public') && 'public')`.  `none` models the
chain evaluating to `false`. -/
def resolvePath (pathArg : Option String) (existsSync : String → Bool) : Option String :=
  if truthy pathArg then pathArg
  else if existsSync "deploy" then some "deploy"
  else if existsSync "public" then some "public"
  else none

/-- Lines 91-112: the `errors` array accumulated during validation, in
push order. -/
def validationErrors (vs : ArgValues) (existsSync : String → Bool)
    (token : Option String) : List String :=
  (if !truthy vs.version then ["Missing 'version' argument."] else [])
  ++ (if !truthy vs.gameId then ["Missing 'gameId' argument."] else [])
  ++ (match resolvePath vs.path existsSync with
      | none => ["No such path: deploy/ or public/\nPass a path via --path argument."]
      | some p =>
        if !existsSync p then ["Provided path " ++ p ++ " does not exist."]
        else if !existsSync (p ++ "/index.html") then
          ["Provided path " ++ p ++ " does not contain an index.html."]
        else [])
  ++ (if !truthy token then ["'HEYVR_ACCESS_TOKEN' environment variable not set."] else [])

/-- Lines 123-128: the suffix classification of a string into an
increment keyword.  In the source this is applied to `process.argv[2]`. -/
def classifyVersion (s : String) : String :=
  if jsEndsWith s ".0.0" then "major"
  else if jsEndsWith s ".0" then "minor"
  else "patch"

/-- Hexadecimal or decimal digit value of a character, as consumed by JS
`parseInt` for the given base. -/
def digitValue (base : Nat) (c : Char) : Option Nat :=
  if '0' ≤ c ∧ c ≤ '9' then
    let d := c.toNat - '0'.toNat
    if d < base then some d else none
  else if base = 16 ∧ 'a' ≤ c ∧ c ≤ 'f' then some (c.toNat - 'a'.toNat + 10)
  else if base = 16 ∧ 'A' ≤ c ∧ c ≤ 'F' then some (c.toNat - 'A'.toNat + 10)
  else none

/-- JS `Number.parseInt` with no radix argument: skip leading whitespace,
optional sign, optional `0x`/`0X` prefix selecting base 16, then the
longest prefix of digits; `none` models the NaN result when no digit is
found. -/
def jsParseInt (s : String) : Option Int :=
  let cs := s.toList.dropWhile fun c => c.isWhitespace
  let signAndRest : Int × List Char :=
    match cs with
    | '-' :: t => (-1, t)
    | '+' :: t => (1, t)
    | _ => (1, cs)
  let baseAndRest : Nat × List Char :=
    match signAndRest.2 with
    | '0' :: 'x' :: t => (16, t)
    | '0' :: 'X' :: t => (16, t)
    | l => (10, l)
  let base := baseAndRest.1
  let ds := baseAndRest.2.takeWhile fun c => (digitValue base c).isSome
  if ds.isEmpty then none
  else some (signAndRest.1 *
    (ds.foldl (fun acc c => acc * base + (digitValue base c).getD 0) (0 : Nat) : Nat))

/-- Line 138: `Number.parseInt(args.values.sdkVersion || 1)`.  When the
flag is absent or empty the `||` yields the number `1`, which `parseInt`
coerces to the string "1"; otherwise the supplied string is parsed. -/
def sdkVersionField (sdkVersion : Option String) : Option Int :=
  jsParseInt (if truthy sdkVersion then sdkVersion.getD "" else "1")

/-- Outcome of the awaited `zipDeployFolder` promise (lines 40-66): a
buffer of some byte length, or an archiver error. -/
inductive ArchiveResult
  | ok (size : Nat)
  | err
deriving DecidableEq, Repr

/-- Outcome of the awaited axios POST (lines 141-168): a response with
some HTTP status, or a network error with no response. -/
inductive UploadResult
  | response (status : Nat)
  | networkError
deriving DecidableEq, Repr

/-- The externally visible phases the run can reach after validation:
building the zip archive, and issuing the HTTP request. -/
inductive Action
  | zip
  | post
deriving DecidableEq, Repr

/-- Observable outcome of one run of `main()`: the exit code, the
validation errors printed, the effectful phases reached, and the
multipart form fields when a request was sent (inner `none` in
`formSdkVersion` models NaN). -/
structure Outcome where
  exitCode : Nat
  reported : List String
  actions : List Action
  formGameSlug : Option String
  formVersion : Option String
  formSdkVersion : Option (Option Int)
deriving Repr

/-- Outcome of a run that stops before building the form. -/
def Outcome.noForm (code : Nat) (reported : List String) (actions : List Action) : Outcome :=
  { exitCode := code, reported := reported, actions := actions,
    formGameSlug := none, formVersion := none, formSdkVersion := none }

/-- Embedding of `main()` (lines 82-169).

* `parseArgs` throwing (strict mode) is an uncaught exception: exit 1.
* If `errors` is non-empty, they are printed and the process exits 1
  before the archive or any request (lines 114-121).
* The increment keyword is classified from `process.argv[2]` (line 124),
  not from the parsed `--version` value.
* An archiver error is swallowed by `.catch(console.error)`, after which
  `gameFile.length` on line 131 throws on `undefined`; the unhandled
  rejection terminates the process with exit code 1 and no request.
* A response is a success exactly when its status is 200 (line 155);
  otherwise the process exits 1, whether through the non-200 branch on
  lines 157-161 or the rejection handler on lines 163-168 (axios rejects
  non-2xx statuses by default; either path exits 1, and the handler
  crash on `error.response.data` for a response-less network error also
  yields exit code 1). -/
def mainRun (w : World) (arch : ArchiveResult) (upload : UploadResult) : Outcome :=
  match parseArgsValues (w.argv.drop 2) {} with
  | none => Outcome.noForm 1 [] []
  | some vs =>
    let errs := validationErrors vs w.existsSync w.heyvrAccessToken
    if errs.length != 0 then
      Outcome.noForm 1 errs []
    else
      let version := classifyVersion ((w.argv.get? 2).getD "")
      match arch with
      | ArchiveResult.err => Outcome.noForm 1 [] [Action.zip]
      | ArchiveResult.ok _ =>
        let exitCode :=
          match upload with
          | UploadResult.response status => if status = 200 then 0 else 1
          | UploadResult.networkError => 1
        { exitCode := exitCode, reported := [], actions := [Action.zip, Action.post],
          formGameSlug := vs.gameId, formVersion := some version,
          formSdkVersion := some (sdkVersionField vs.sdkVersion) }

/-- Whether parsing succeeds and the validation error list is empty. -/
def validationPasses (w : World) : Bool :=
  match parseArgsValues (w.argv.drop 2) {} with
  | none => false
  | some vs => (validationErrors vs w.existsSync w.heyvrAccessToken).isEmpty

/-- A file system in which only `deploy/` and its `index.html` exist. -/
def deployOnlyFs : String → Bool :=
  fun s => s == "deploy" || s == "deploy/index.html"

/-- The documented invocation `heyvr --version 1.0.0 --gameId mygame`,
run where `deploy/index.html` exists and the access token is set. -/
def worldVersionFlag : World :=
  { argv := ["node", "index.js", "--version", "1.0.0", "--gameId", "mygame"],
    existsSync := deployOnlyFs, heyvrAccessToken := some "token" }

/-- The invocation `heyvr --version 1.0.0 --gameId g --sdkVersion ""`,
run where `deploy/index.html` exists and the access token is set. -/
def worldEmptySdk : World :=
  { argv := ["node", "index.js", "--version", "1.0.0", "--gameId", "g",
             "--sdkVersion", ""],
    existsSync := deployOnlyFs, heyvrAccessToken := some "token" }

/- Helper lemmas shared by several claim proofs. -/

/-- When validation fails, the run reports exactly the accumulated error
list, exits with code 1, and reaches no effectful phase. -/
theorem mainRun_of_errors (w : World) (arch : ArchiveResult) (up : UploadResult)
    (vs : ArgValues) (hp : parseArgsValues (w.argv.drop 2) {} = some vs)
    (hne : validationErrors vs w.existsSync w.heyvrAccessToken ≠ []) :
    mainRun w arch up =
      Outcome.noForm 1 (validationErrors vs w.existsSync w.heyvrAccessToken) [] := by
  unfold mainRun
  rw [hp]
  cases h : validationErrors vs w.existsSync w.heyvrAccessToken with
  | nil => exact absurd h hne
  | cons a t => simp [h]

/-- A string distinct from the empty string is JS-truthy. -/
theorem truthy_some_of_ne (p : String) (hp : p ≠ "") : truthy (some p) = true := by
  cases h : p.toList.isEmpty with
  | false =>
    simp [truthy, h]
    intro hd
    exact hp (String.ext hd)
  | true =>
    exfalso
    apply hp
    apply String.ext
    simpa [String.toList] using List.isEmpty_iff.mp h

/-- C1: on the documented invocation `heyvr --version 1.0.0 --gameId
mygame`, validation passes (exit code 0 with a 200 response), the value
supplied via the `--version` flag is "1.0.0" whose classification is
"major", yet the `version` field sent in the form is "patch": the code
classifies `process.argv[2]` (the literal token "--version"), not the
flag's value. -/
theorem version_field_ignores_version_flag_value :
    parseArgsValues (worldVersionFlag.argv.drop 2) {} =
      some { version := some "1.0.0", path := none,
             gameId := some "mygame", sdkVersion := none }
    ∧ classifyVersion "1.0.0" = "major"
    ∧ (mainRun worldVersionFlag (ArchiveResult.ok 100) (UploadResult.response 200)).exitCode = 0
    ∧ (mainRun worldVersionFlag (ArchiveResult.ok 100) (UploadResult.response 200)).formVersion
        = some "patch" := by
  refine ⟨by decide, by decide, by decide, by decide⟩

/-- C2: the classifier always returns one of "major"/"minor"/"patch" by
suffix match — ".0.0" gives "major", otherwise ".0" gives "minor",
otherwise "patch" — and in particular "1.10.0" classifies as "minor"
and "0.0.0" as "major". -/
theorem classifyVersion_suffix_cases (s : String) :
    (classifyVersion s = "major" ∨ classifyVersion s = "minor" ∨ classifyVersion s = "patch")
    ∧ (jsEndsWith s ".0.0" = true → classifyVersion s = "major")
    ∧ (jsEndsWith s ".0.0" = false → jsEndsWith s ".0" = true → classifyVersion s = "minor")
    ∧ (jsEndsWith s ".0.0" = false → jsEndsWith s ".0" = false → classifyVersion s = "patch")
    ∧ classifyVersion "1.10.0" = "minor"
    ∧ classifyVersion "0.0.0" = "major" := by
  refine ⟨?_, ?_, ?_, ?_, by decide, by decide⟩
  · cases h1 : jsEndsWith s ".0.0" with
    | true => exact Or.inl (by simp [classifyVersion, h1])
    | false =>
      cases h2 : jsEndsWith s ".0" with
      | true => exact Or.inr (Or.inl (by simp [classifyVersion, h1, h2]))
      | false => exact Or.inr (Or.inr (by simp [classifyVersion, h1, h2]))
  · intro h1
    simp [classifyVersion, h1]
  · intro h1 h2
    simp [classifyVersion, h1, h2]
  · intro h1 h2
    simp [classifyVersion, h1, h2]

/-- C2 witness: the three suffix cases at concrete version strings. -/
theorem classifyVersion_suffix_cases_witness :
    classifyVersion "2.0.0" = "major"
    ∧ classifyVersion "2.5.0" = "minor"
    ∧ classifyVersion "2.5.1" = "patch" :=
  ⟨(classifyVersion_suffix_cases "2.0.0").2.1 (by decide),
   (classifyVersion_suffix_cases "2.5.0").2.2.1 (by decide) (by decide),
   (classifyVersion_suffix_cases "2.5.1").2.2.2.1 (by decide) (by decide)⟩

/-- C3: when both the version argument and the access token are missing,
both corresponding error messages appear in the same run's reported
output, the reported list is exactly the accumulated validation error
list, and the process exits 1. -/
theorem errors_accumulated_and_reported_together (w : World)
    (arch : ArchiveResult) (up : UploadResult) (vs : ArgValues)
    (hp : parseArgsValues (w.argv.drop 2) {} = some vs)
    (hv : truthy vs.version = false)
    (ht : truthy w.heyvrAccessToken = false) :
    "Missing 'version' argument." ∈ (mainRun w arch up).reported
    ∧ "'HEYVR_ACCESS_TOKEN' environment variable not set." ∈ (mainRun w arch up).reported
    ∧ (mainRun w arch up).reported = validationErrors vs w.existsSync w.heyvrAccessToken
    ∧ (mainRun w arch up).exitCode = 1 := by
  have h1 : "Missing 'version' argument." ∈
      validationErrors vs w.existsSync w.heyvrAccessToken := by
    simp [validationErrors, hv]
  have hrun := mainRun_of_errors w arch up vs hp (List.ne_nil_of_mem h1)
  refine ⟨?_, ?_, ?_, ?_⟩ <;> rw [hrun]
  · exact h1
  · simp [Outcome.noForm, validationErrors, ht]
  · rfl
  · rfl

/-- C3 witness: `heyvr --gameId g` with no token set and an existing
deploy folder reports both the missing-version and the missing-token
errors and exits 1. -/
theorem errors_accumulated_and_reported_together_witness :
    "Missing 'version' argument." ∈
      (mainRun { argv := ["node", "index.js", "--gameId", "g"],
                 existsSync := deployOnlyFs, heyvrAccessToken := none }
        (ArchiveResult.ok 0) (UploadResult.response 200)).reported
    ∧ "'HEYVR_ACCESS_TOKEN' environment variable not set." ∈
      (mainRun { argv := ["node", "index.js", "--gameId", "g"],
                 existsSync := deployOnlyFs, heyvrAccessToken := none }
        (ArchiveResult.ok 0) (UploadResult.response 200)).reported := by
  have h := errors_accumulated_and_reported_together
    { argv := ["node", "index.js", "--gameId", "g"],
      existsSync := deployOnlyFs, heyvrAccessToken := none }
    (ArchiveResult.ok 0) (UploadResult.response 200)
    { version := none, path := none, gameId := some "g", sdkVersion := none }
    (by decide) (by decide) (by decide)
  exact ⟨h.1, h.2.1⟩

/-- C4: the exit code is 0 exactly when parsing and validation succeed,
the archive is built without error, and the upload response has status
200; in every other case it is 1. -/
theorem exit_code_zero_iff_success (w : World) (arch : ArchiveResult) (up : UploadResult) :
    (mainRun w arch up).exitCode =
      if validationPasses w = true ∧ arch ≠ ArchiveResult.err
          ∧ up = UploadResult.response 200
      then 0 else 1 := by
  unfold mainRun validationPasses
  cases hp : parseArgsValues (w.argv.drop 2) {} with
  | none => simp [Outcome.noForm]
  | some vs =>
    cases h : validationErrors vs w.existsSync w.heyvrAccessToken with
    | cons a t => simp [h, Outcome.noForm]
    | nil =>
      cases arch with
      | err => simp [h, Outcome.noForm]
      | ok n =>
        cases up with
        | networkError => simp [h, Outcome.noForm]
        | response status =>
          by_cases hs : status = 200 <;> simp [h, hs, Outcome.noForm]

/-- C5: with no `--path` argument and neither `deploy/` nor `public/`
existing, the run reports the missing-path error and exits non-zero. -/
theorem missing_path_reported_and_nonzero_exit (w : World)
    (arch : ArchiveResult) (up : UploadResult) (vs : ArgValues)
    (hp : parseArgsValues (w.argv.drop 2) {} = some vs)
    (hpath : vs.path = none)
    (hd : w.existsSync "deploy" = false)
    (hpub : w.existsSync "public" = false) :
    "No such path: deploy/ or public/\nPass a path via --path argument."
      ∈ (mainRun w arch up).reported
    ∧ (mainRun w arch up).exitCode ≠ 0 := by
  have hres : resolvePath vs.path w.existsSync = none := by
    simp [resolvePath, hpath, truthy, hd, hpub]
  have h1 : "No such path: deploy/ or public/\nPass a path via --path argument."
      ∈ validationErrors vs w.existsSync w.heyvrAccessToken := by
    simp [validationErrors, hres]
  have hrun := mainRun_of_errors w arch up vs hp (List.ne_nil_of_mem h1)
  rw [hrun]
  exact ⟨h1, by simp [Outcome.noForm]⟩

/-- C5 witness: a valid flag set but an empty file system exits non-zero
with the missing-path error reported. -/
theorem missing_path_reported_and_nonzero_exit_witness :
    "No such path: deploy/ or public/\nPass a path via --path argument."
      ∈ (mainRun { argv := ["node", "index.js", "--version", "1.0.0", "--gameId", "g"],
                   existsSync := fun _ => false, heyvrAccessToken := some "t" }
          (ArchiveResult.ok 0) (UploadResult.response 200)).reported
    ∧ (mainRun { argv := ["node", "index.js", "--version", "1.0.0", "--gameId", "g"],
                 existsSync := fun _ => false, heyvrAccessToken := some "t" }
        (ArchiveResult.ok 0) (UploadResult.response 200)).exitCode ≠ 0 :=
  missing_path_reported_and_nonzero_exit
    { argv := ["node", "index.js", "--version", "1.0.0", "--gameId", "g"],
      existsSync := fun _ => false, heyvrAccessToken := some "t" }
    (ArchiveResult.ok 0) (UploadResult.response 200)
    { version := some "1.0.0", path := none, gameId := some "g", sdkVersion := none }
    (by decide) rfl rfl rfl

/-- C6: when the resolved path exists but holds no `index.html` at its
root, the run reports the specific missing-index.html error for that
path and exits non-zero. -/
theorem missing_index_html_reported_and_nonzero_exit (w : World)
    (arch : ArchiveResult) (up : UploadResult) (vs : ArgValues) (p : String)
    (hp : parseArgsValues (w.argv.drop 2) {} = some vs)
    (hres : resolvePath vs.path w.existsSync = some p)
    (hex : w.existsSync p = true)
    (hidx : w.existsSync (p ++ "/index.html") = false) :
    ("Provided path " ++ p ++ " does not contain an index.html.")
      ∈ (mainRun w arch up).reported
    ∧ (mainRun w arch up).exitCode ≠ 0 := by
  have h1 : ("Provided path " ++ p ++ " does not contain an index.html.")
      ∈ validationErrors vs w.existsSync w.heyvrAccessToken := by
    simp [validationErrors, hres, hex, hidx]
  have hrun := mainRun_of_errors w arch up vs hp (List.ne_nil_of_mem h1)
  rw [hrun]
  exact ⟨h1, by simp [Outcome.noForm]⟩

/-- C6 witness: `--path dist` where `dist` exists without an
`index.html` reports the specific error and exits non-zero. -/
theorem missing_index_html_reported_and_nonzero_exit_witness :
    ("Provided path " ++ "dist" ++ " does not contain an index.html.")
      ∈ (mainRun { argv := ["node", "index.js", "--version", "1.0.0", "--gameId", "g",
                            "--path", "dist"],
                   existsSync := fun s => s == "dist", heyvrAccessToken := some "t" }
          (ArchiveResult.ok 0) (UploadResult.response 200)).reported
    ∧ (mainRun { argv := ["node", "index.js", "--version", "1.0.0", "--gameId", "g",
                          "--path", "dist"],
                 existsSync := fun s => s == "dist", heyvrAccessToken := some "t" }
        (ArchiveResult.ok 0) (UploadResult.response 200)).exitCode ≠ 0 :=
  missing_index_html_reported_and_nonzero_exit
    { argv := ["node", "index.js", "--version", "1.0.0", "--gameId", "g",
               "--path", "dist"],
      existsSync := fun s => s == "dist", heyvrAccessToken := some "t" }
    (ArchiveResult.ok 0) (UploadResult.response 200)
    { version := some "1.0.0", path := some "dist", gameId := some "g", sdkVersion := none }
    "dist" (by decide) (by decide) (by decide) (by decide)

/-- C7: with no `--path` argument the path resolves to `deploy` when
that directory exists, else to `public` when that one exists — `deploy/`
takes priority over `public/`. -/
theorem default_path_deploy_then_public (ex : String → Bool) :
    resolvePath none ex =
      if ex "deploy" then some "deploy"
      else if ex "public" then some "public"
      else none := by
  simp [resolvePath, truthy]

/-- C8 counterexample: on `heyvr --version 1.0.0 --gameId g
--sdkVersion ""` the supplied `--sdkVersion` string is "" whose JS
integer parse is NaN, yet the `sdk_version` field sent is 1 — the `||`
fallback fires on the falsy empty string before parsing. -/
theorem empty_sdkVersion_field_is_one_not_parse :
    parseArgsValues (worldEmptySdk.argv.drop 2) {} =
      some { version := some "1.0.0", path := none,
             gameId := some "g", sdkVersion := some "" }
    ∧ jsParseInt "" = none
    ∧ (mainRun worldEmptySdk (ArchiveResult.ok 10) (UploadResult.response 200)).formSdkVersion
        = some (some 1)
    ∧ (mainRun worldEmptySdk (ArchiveResult.ok 10) (UploadResult.response 200)).formSdkVersion
        ≠ some (jsParseInt "") := by
  refine ⟨by decide, by decide, by decide, by decide⟩

/-- C8 amended: the `sdk_version` field is 1 when `--sdkVersion` is
absent or empty, and the JS integer parse of the supplied string when
it is non-empty. -/
theorem sdkVersionField_default_and_parse (sdkArg : Option String) :
    (truthy sdkArg = false → sdkVersionField sdkArg = some 1)
    ∧ ∀ s, sdkArg = some s → s ≠ "" → sdkVersionField sdkArg = jsParseInt s := by
  constructor
  · intro h
    simp [sdkVersionField, h]
    decide
  · intro s hs hne
    rw [hs]
    simp [sdkVersionField, truthy_some_of_ne s hne]

/-- C8 witness: the default and the parsed case at concrete inputs. -/
theorem sdkVersionField_default_and_parse_witness :
    sdkVersionField none = some 1 ∧ sdkVersionField (some "7") = jsParseInt "7" :=
  ⟨(sdkVersionField_default_and_parse none).1 rfl,
   (sdkVersionField_default_and_parse (some "7")).2 "7" rfl (by decide)⟩

/-- C9: a non-empty supplied `--path` value is resolved to itself, and
the resolution never consults the existence of `deploy/` or `public/`:
two runs differing only in the file system resolve the same path. -/
theorem supplied_path_wins_and_ignores_fs (p : String) (hp : p ≠ "")
    (ex1 ex2 : String → Bool) :
    resolvePath (some p) ex1 = some p
    ∧ resolvePath (some p) ex1 = resolvePath (some p) ex2 := by
  have ht := truthy_some_of_ne p hp
  constructor
  · simp [resolvePath, ht]
  · simp [resolvePath, ht]

/-- C9 witness: `--path game` resolves to `game` whether or not any
directory exists. -/
theorem supplied_path_wins_and_ignores_fs_witness :
    resolvePath (some "game") (fun _ => true) = some "game"
    ∧ resolvePath (some "game") (fun _ => true)
        = resolvePath (some "game") (fun _ => false) :=
  supplied_path_wins_and_ignores_fs "game" (by decide) (fun _ => true) (fun _ => false)

/-- C10: whenever the validation error list is non-empty the run reaches
neither the archive phase nor the HTTP request, builds no form, and
exits 1. -/
theorem no_zip_no_upload_on_validation_failure (w : World)
    (arch : ArchiveResult) (up : UploadResult) (vs : ArgValues)
    (hp : parseArgsValues (w.argv.drop 2) {} = some vs)
    (hne : validationErrors vs w.existsSync w.heyvrAccessToken ≠ []) :
    Action.zip ∉ (mainRun w arch up).actions
    ∧ Action.post ∉ (mainRun w arch up).actions
    ∧ (mainRun w arch up).formVersion = none
    ∧ (mainRun w arch up).exitCode = 1 := by
  rw [mainRun_of_errors w arch up vs hp hne]
  refine ⟨by simp [Outcome.noForm], by simp [Outcome.noForm], rfl, rfl⟩

/-- C10 witness: the bare invocation `heyvr` on an empty file system
with no token fails validation and reaches neither phase. -/
theorem no_zip_no_upload_on_validation_failure_witness :
    Action.zip ∉ (mainRun { argv := ["node", "index.js"],
                            existsSync := fun _ => false, heyvrAccessToken := none }
        (ArchiveResult.ok 0) (UploadResult.response 200)).actions
    ∧ Action.post ∉ (mainRun { argv := ["node", "index.js"],
                               existsSync := fun _ => false, heyvrAccessToken := none }
        (ArchiveResult.ok 0) (UploadResult.response 200)).actions :=
  let h := no_zip_no_upload_on_validation_failure
    { argv := ["node", "index.js"], existsSync := fun _ => false, heyvrAccessToken := none }
    (ArchiveResult.ok 0) (UploadResult.response 200)
    { version := none, path := none, gameId := none, sdkVersion := none }
    rfl (by decide)
  ⟨h.1, h.2.1⟩

end HeyVR
